import Mathlib

/-!
Shallow embedding of the two scripts of `binance-public-data`:
`python/verify-data.py` (checksum verification) and `python/download-kline.py`
(concurrent kline download).  File-system access, SHA-256 digesting and the
HTTP transfer primitive are external effects; they are modelled as explicit
environment records, and all stateful code is modelled by explicit state
passing.  Threading/multiprocessing is modelled by sequential folds over the
work lists: every per-item operation touches only its own inputs plus the
explicitly threaded shared state, so any interleaving produces the same
counters.
-/

namespace BinanceData

/-! ### Character-level string helpers (kernel-reducible replacements for
Python `str` operations used by the scripts) -/

/-- Split a character list on a separator character (like Python `str.split(sep)`). -/
def chSplit (sep : Char) : List Char → List (List Char)
  | [] => [[]]
  | c :: rest =>
    let r := chSplit sep rest
    if c = sep then [] :: r
    else (c :: r.headD []) :: r.tail

/-- Join character-list components with a separator character. -/
def joinWith (sep : Char) : List (List Char) → List Char
  | [] => []
  | [x] => x
  | x :: y :: rest => x ++ sep :: joinWith sep (y :: rest)

/-- Python `str.strip()`: drop leading and trailing whitespace. -/
def pyStrip (s : String) : String :=
  String.mk (((s.data.dropWhile Char.isWhitespace).reverse.dropWhile Char.isWhitespace).reverse)

/-- The first line of a file's content, as read by Python `f.readline()`
(up to, excluding, the first newline). -/
def firstLine (s : String) : String :=
  String.mk (s.data.takeWhile (fun c => !(c = Char.ofNat 10)))

/-- First whitespace-delimited token, i.e. Python `line.split()[0]` for a
stripped non-empty `line`. -/
def firstToken (s : String) : String :=
  String.mk (s.data.takeWhile (fun c => !c.isWhitespace))

/-- Python `str.lower()` (ASCII case folding suffices for hex digests). -/
def strLower (s : String) : String := String.mk (s.data.map Char.toLower)

/-- Python `str.upper()`. -/
def strUpper (s : String) : String := String.mk (s.data.map Char.toUpper)

/-- `pathlib.Path(p).with_suffix('')`: drop the final extension of the last
path component (a leading dot alone does not start an extension). -/
def stripLastExt (p : String) : String :=
  let comps := chSplit '/' p.data
  let name := comps.getLastD []
  let parts := chSplit '.' name
  let stripped :=
    if parts.length ≥ 2 ∧ (parts.headD [] ≠ [] ∨ parts.length ≥ 3) then
      joinWith '.' parts.dropLast
    else name
  String.mk (joinWith '/' (comps.dropLast ++ [stripped]))

/-- `pathlib.Path(p).name` after suffix stripping: the last `/`-component. -/
def lastComponent (p : String) : String :=
  String.mk ((chSplit '/' p.data).getLastD [])

/-- Python truthiness test `not x` for an optional string
(`None` and `""` are falsy). -/
def pyFalsy : Option String → Bool
  | none => true
  | some s => s = ""

/-! ### verify-data.py -/

/-- Classification statuses produced by `verify_single_file_worker`. -/
inductive VStatus where
  | verified
  | corrupted
  | missing
  | invalid_checksum
  | read_error
  | unknown
deriving DecidableEq, Repr

/-- The `result` dictionary built by `verify_single_file_worker`. -/
structure VResult where
  file : String
  path : String
  status : VStatus
  expected : String
  actual : String
deriving DecidableEq, Repr

/-- External effects of `verify-data.py`: directory existence, the list of
discovered `*.CHECKSUM` sidecars (`data_path.glob("**/*.CHECKSUM")`), file
existence, raw file contents (`none` = unreadable), and the SHA-256 digest of
a file's content (`none` = read error while streaming the file). -/
structure VerifyEnv where
  dirExists : Bool
  checksumFiles : List String
  fileExists : String → Bool
  readFile : String → Option String
  sha256 : String → Option String

/-- `calculate_sha256`: streams the file in 4096-byte chunks through
`hashlib.sha256` and returns `hexdigest()`, or `None` on any read exception.
The digest computation itself is external mathematics; it is modelled by the
environment's digest oracle. -/
def calculate_sha256 (env : VerifyEnv) (file_path : String) : Option String :=
  env.sha256 file_path

/-- `read_checksum_file`: first line of the sidecar, stripped; `None` when the
file is unreadable or the stripped line is empty, else its first
whitespace-delimited token (Binance format `"hash  filename"`). -/
def read_checksum_file (env : VerifyEnv) (checksum_path : String) : Option String :=
  match env.readFile checksum_path with
  | none => none
  | some content =>
    let line := pyStrip (firstLine content)
    if line = "" then none else some (firstToken line)

/-- `verify_single_file_worker`: classify one discovered sidecar file. -/
def verify_single_file_worker (env : VerifyEnv) (checksum_file_path : String) : VResult :=
  let data_file := stripLastExt checksum_file_path
  let base : VResult :=
    { file := lastComponent data_file, path := data_file,
      status := .unknown, expected := "", actual := "" }
  if env.fileExists data_file then
    let expected_hash := read_checksum_file env checksum_file_path
    if pyFalsy expected_hash then { base with status := .invalid_checksum }
    else
      let actual_hash := calculate_sha256 env data_file
      if pyFalsy actual_hash then { base with status := .read_error }
      else
        let e := expected_hash.getD ""
        let a := actual_hash.getD ""
        if strLower e = strLower a then
          { base with status := .verified, expected := e, actual := a }
        else
          { base with status := .corrupted, expected := e, actual := a }
  else { base with status := .missing }

/-- The result-processing loop of `verify_directory_parallel`: running
`(verified, failed, missing)` counts.  NOTE (faithful to the source): only the
statuses `verified`, `corrupted` and `missing` are counted; `invalid_checksum`
and `read_error` results fall through the `if/elif` chain untouched. -/
def tallyStep (acc : Nat × Nat × Nat) (r : VResult) : Nat × Nat × Nat :=
  match r.status with
  | .verified => (acc.1 + 1, acc.2.1, acc.2.2)
  | .corrupted => (acc.1, acc.2.1 + 1, acc.2.2)
  | .missing => (acc.1, acc.2.1, acc.2.2 + 1)
  | _ => acc

/-- `verify_directory_parallel`: map the worker over all discovered sidecars
(the pool only affects scheduling), tally, and return
`failed == 0 and missing == 0`. -/
def verify_directory_parallel (env : VerifyEnv) : Bool :=
  if !env.dirExists then false
  else if env.checksumFiles.isEmpty then false
  else
    let results := env.checksumFiles.map (verify_single_file_worker env)
    let t := results.foldl tallyStep (0, 0, 0)
    decide (t.2.1 = 0 ∧ t.2.2 = 0)

/-- The per-file body of the `verify_directory_sequential` loop, updating the
`(verified, failed, missing)` counters; here `failed` is incremented for
invalid sidecars, digest read errors and mismatches alike. -/
def seqStep (env : VerifyEnv) (acc : Nat × Nat × Nat) (checksum_file : String) : Nat × Nat × Nat :=
  let data_file := stripLastExt checksum_file
  if env.fileExists data_file then
    let expected_hash := read_checksum_file env checksum_file
    if pyFalsy expected_hash then (acc.1, acc.2.1 + 1, acc.2.2)
    else
      let actual_hash := calculate_sha256 env data_file
      if pyFalsy actual_hash then (acc.1, acc.2.1 + 1, acc.2.2)
      else if strLower (expected_hash.getD "") = strLower (actual_hash.getD "") then
        (acc.1 + 1, acc.2.1, acc.2.2)
      else (acc.1, acc.2.1 + 1, acc.2.2)
  else (acc.1, acc.2.1, acc.2.2 + 1)

/-- `verify_directory_sequential`: same discovery and boundary checks, inline
classification, returns `failed == 0 and missing == 0`. -/
def verify_directory_sequential (env : VerifyEnv) : Bool :=
  if !env.dirExists then false
  else if env.checksumFiles.isEmpty then false
  else
    let t := env.checksumFiles.foldl (seqStep env) (0, 0, 0)
    decide (t.2.1 = 0 ∧ t.2.2 = 0)

/-- `verify_single_file`: verify one data file against the sidecar obtained by
appending `.CHECKSUM` to its full name. -/
def verify_single_file (env : VerifyEnv) (file_path : String) : Bool :=
  let checksum_file := file_path ++ ".CHECKSUM"
  if !env.fileExists file_path then false
  else if !env.fileExists checksum_file then false
  else
    let expected_hash := read_checksum_file env checksum_file
    let actual_hash := calculate_sha256 env file_path
    if !pyFalsy expected_hash ∧ !pyFalsy actual_hash ∧
        strLower (expected_hash.getD "") = strLower (actual_hash.getD "") then true
    else false

/-- What `Path(target).is_file()` / `is_dir()` report in `main`. -/
inductive TargetKind where
  | file
  | dir
  | absent
deriving DecidableEq, Repr

/-- The CLI arguments `main` consumes. -/
structure MainArgs where
  target : String
  kind : TargetKind
  sequentialFlag : Bool
deriving DecidableEq, Repr

/-- `main` of verify-data.py reduced to its exit status: 0 on a `True`
success boolean, 1 otherwise, and 1 when the target path does not exist. -/
def mainExitCode (env : VerifyEnv) (args : MainArgs) : Nat :=
  match args.kind with
  | .file => if verify_single_file env args.target then 0 else 1
  | .dir =>
    if (if args.sequentialFlag then verify_directory_sequential env
        else verify_directory_parallel env) then 0 else 1
  | .absent => 1

/-! ### download-kline.py -/

/-- One element of the download queue: the `download_info` tuple
`(trading_type, symbol, interval, date, start_date, end_date, folder,
checksum, date_range)`.  `start_date`/`end_date` are already converted date
objects (modelled as day ordinals); `date` is the raw date token string. -/
structure DownloadInfo where
  trading_type : String
  symbol : String
  interval : String
  date : String
  start_date : Int
  end_date : Int
  folder : String
  checksum : Nat
  date_range : Option String
deriving DecidableEq, Repr

/-- Outcome of one invocation of the external transfer primitive.
Modelled from the spec: `utility.download_file` is not under `src/`; per the
spec the primitive, given `(path, fileName, dateRangeHint, folder)`, either
writes the destination file or fails, and a failure may surface as an
exception (caught at the worker boundary, spec section 4.3 step 4 / section 7) or be
reported without raising (the reference behavior for a missing remote file,
spec section 4.3 step 5). -/
inductive TransferOutcome where
  | ok (size : Nat)
  | softFail
  | exn (msg : String)
deriving DecidableEq, Repr

/-- External collaborators of `download-kline.py`:
`convert_to_date_object` (day ordinal of a date token), `get_path`
(PathResolver: pure, per the spec), the working directory, and the behaviour
of the transfer primitive for each `(path, fileName)` request. -/
structure DlEnv where
  toDate : String → Int
  getPath : String → String → String → String → String → String
  cwd : String
  transfer : String → String → TransferOutcome

/-- `DownloadTracker` counters plus the `failed_files` list (the lock and the
throttled progress print carry no state relevant to the claims). -/
structure Tracker where
  completed : Nat
  failed : Nat
  skipped : Nat
  total : Nat
  failed_files : List String
deriving DecidableEq, Repr

def mark_completed (t : Tracker) : Tracker := { t with completed := t.completed + 1 }

def mark_failed (t : Tracker) : Tracker := { t with failed := t.failed + 1 }

def mark_skipped (t : Tracker) : Tracker := { t with skipped := t.skipped + 1 }

def append_failed (s : String) (t : Tracker) : Tracker :=
  { t with failed_files := t.failed_files ++ [s] }

/-- Mutable world threaded through the download phase: the destination file
system (path to size), the shared tracker, and an observation log of every
invocation of the transfer primitive. -/
structure DlState where
  fs : String → Option Nat
  tracker : Tracker
  transferCalls : List (String × String)

/-- `is_file_complete`: the file exists and has size greater than zero. -/
def is_file_complete (fs : String → Option Nat) (file_path : String) : Bool :=
  match fs file_path with
  | none => false
  | some size => decide (0 < size)

/-- `os.path.join` for the three relative components used by the script. -/
def joinPath (a b c : String) : String := a ++ "/" ++ b ++ "/" ++ c

def pathOf (env : DlEnv) (info : DownloadInfo) : String :=
  env.getPath info.trading_type "klines" "daily" info.symbol info.interval

def fileNameOf (info : DownloadInfo) : String :=
  strUpper info.symbol ++ "-" ++ info.interval ++ "-" ++ info.date ++ ".zip"

def checksumNameOf (info : DownloadInfo) : String :=
  strUpper info.symbol ++ "-" ++ info.interval ++ "-" ++ info.date ++ ".zip.CHECKSUM"

/-- `folder or os.getcwd()` (empty string models a falsy folder argument). -/
def baseDirOf (env : DlEnv) (info : DownloadInfo) : String :=
  if info.folder = "" then env.cwd else info.folder

def fullPathOf (env : DlEnv) (info : DownloadInfo) : String :=
  joinPath (baseDirOf env info) (pathOf env info) (fileNameOf info)

def checksumFullPathOf (env : DlEnv) (info : DownloadInfo) : String :=
  joinPath (baseDirOf env info) (pathOf env info) (checksumNameOf info)

/-- The task identifier string `f"{symbol}-{interval}-{date}"` used both as
dedup key and as failed-items entry. -/
def taskId (info : DownloadInfo) : String :=
  info.symbol ++ "-" ++ info.interval ++ "-" ++ info.date

/-- Modelled from the spec: `utility.download_file` is not under `src/`.  It
records the invocation, then per the transfer behaviour either writes the
destination file `<folder-or-cwd>/<path>/<fileName>` (spec section 6 layout), fails
without raising, or raises (second component `some msg`). -/
def download_file (env : DlEnv) (path fileName folder : String) (st : DlState) :
    DlState × Option String :=
  let full := joinPath (if folder = "" then env.cwd else folder) path fileName
  let st1 := { st with transferCalls := st.transferCalls ++ [(path, fileName)] }
  match env.transfer path fileName with
  | .ok size => ({ st1 with fs := fun p => if p = full then some size else st1.fs p }, none)
  | .softFail => (st1, none)
  | .exn msg => (st1, some msg)

/-- The date token lies in the inclusive `[start_date, end_date]` range
(the worker's first check). -/
def InRange (env : DlEnv) (info : DownloadInfo) : Prop :=
  info.start_date ≤ env.toDate info.date ∧ env.toDate info.date ≤ info.end_date

instance (env : DlEnv) (info : DownloadInfo) : Decidable (InRange env info) :=
  inferInstanceAs (Decidable (And _ _))

/-- `download_single_kline_file`: the worker.  The Python early return on an
out-of-range date is the `else` branch here; everything inside the `try`
block can raise only via `download_file`, whose exception (`some msg`) is
routed to the `except` handler (append to `failed_files`, `mark_failed`,
return `False`). -/
def download_single_kline_file (env : DlEnv) (info : DownloadInfo) (st : DlState) :
    Bool × DlState :=
  if InRange env info then
    if is_file_complete st.fs (fullPathOf env info) then
      (true, { st with tracker := mark_skipped st.tracker })
    else
      match download_file env (pathOf env info) (fileNameOf info) info.folder st with
      | (st1, some _) =>
        (false, { st1 with tracker := mark_failed (append_failed (taskId info) st1.tracker) })
      | (st1, none) =>
        if info.checksum = 1 then
          if is_file_complete st1.fs (checksumFullPathOf env info) then
            (true, { st1 with tracker := mark_completed st1.tracker })
          else
            match download_file env (pathOf env info) (checksumNameOf info) info.folder st1 with
            | (st2, some _) =>
              (false, { st2 with tracker := mark_failed (append_failed (taskId info) st2.tracker) })
            | (st2, none) => (true, { st2 with tracker := mark_completed st2.tracker })
        else (true, { st1 with tracker := mark_completed st1.tracker })
  else (true, st)

/-- A `(symbol, interval, date)` triple of the enumeration in
`build_download_queue`. -/
abbrev Trip := String × String × String

/-- The dedup key `f"{symbol}-{interval}-{date}"` of a triple. -/
def fid3 (t : Trip) : String := t.1 ++ "-" ++ t.2.1 ++ "-" ++ t.2.2

/-- The `symbol`/`interval`/`date` enumeration order of the three nested
loops in `build_download_queue`. -/
def allTriples (symbols intervals dates : List String) : List Trip :=
  symbols.flatMap (fun s => intervals.flatMap (fun i => dates.map (fun d => (s, i, d))))

/-- The `seen_files` filtering of `build_download_queue`: keep a triple when
its `file_id` string is not in the seen set, recording it, i.e. keep the
first occurrence of every `file_id`. -/
def dedupFirst : List String → List Trip → List Trip
  | _, [] => []
  | seen, t :: rest =>
    if fid3 t ∈ seen then dedupFirst seen rest
    else t :: dedupFirst (fid3 t :: seen) rest

/-- `build_download_queue`: enumerate symbols × intervals × dates in loop
order, drop entries whose `file_id` was already seen, and package each kept
triple as a `download_info` tuple. -/
def build_download_queue (trading_type : String) (symbols intervals dates : List String)
    (start_date end_date : Int) (folder : String) (checksum : Nat)
    (date_range : Option String) : List DownloadInfo :=
  (dedupFirst [] (allTriples symbols intervals dates)).map (fun t =>
    { trading_type := trading_type, symbol := t.1, interval := t.2.1, date := t.2.2,
      start_date := start_date, end_date := end_date, folder := folder,
      checksum := checksum, date_range := date_range })

/-- Sequentialised execution of the worker over a task list (the thread pool
of `download_daily_klines`; each task touches only its own files plus the
tracker, through atomic marks, so counters are interleaving-independent). -/
def runQueue (env : DlEnv) : List DownloadInfo → DlState → DlState
  | [], st => st
  | info :: rest, st => runQueue env rest (download_single_kline_file env info st).2

/-- The fresh state `download_daily_klines` starts from: given file system,
tracker with `total = len(download_queue)` and zeroed counters. -/
def initState (queue : List DownloadInfo) (fs : String → Option Nat) : DlState :=
  { fs := fs, tracker := { completed := 0, failed := 0, skipped := 0,
                           total := queue.length, failed_files := [] },
    transferCalls := [] }

/-- One invocation of the download phase of `download_daily_klines` on an
already-built queue. -/
def runPhase (env : DlEnv) (queue : List DownloadInfo) (fs : String → Option Nat) : DlState :=
  runQueue env queue (initState queue fs)

/-- `completed + failed + skipped`, the processed count of the tracker. -/
def csum (t : Tracker) : Nat := t.completed + t.failed + t.skipped

/-! ### Concrete instances used for witnesses and counterexamples -/

/-- A directory holding one sidecar `d/a.zip.CHECKSUM` with empty content,
next to an existing, readable data file `d/a.zip`. -/
def vbugEnv : VerifyEnv :=
  { dirExists := true
    checksumFiles := ["d/a.zip.CHECKSUM"]
    fileExists := fun p => decide (p = "d/a.zip")
    readFile := fun p => if p = "d/a.zip.CHECKSUM" then some "" else none
    sha256 := fun p => if p = "d/a.zip" then some "abc" else none }

/-- A daily-kline task whose date token lies inside `[0, 2]`. -/
def wInfo : DownloadInfo :=
  { trading_type := "spot", symbol := "btcusdt", interval := "1d", date := "2024-01-01",
    start_date := 0, end_date := 2, folder := "f", checksum := 1, date_range := none }

/-- The same task with a range `[5, 9]` its date falls outside of. -/
def xInfo : DownloadInfo := { wInfo with start_date := 5, end_date := 9 }

/-- Environment whose date conversion sends every token to day 1 and whose
transfer primitive always succeeds writing one byte. -/
def dlEnvOk : DlEnv :=
  { toDate := fun _ => 1, getPath := fun _ _ _ _ _ => "p", cwd := "cw",
    transfer := fun _ _ => .ok 1 }

/-- Same environment, but every transfer raises. -/
def dlEnvExn : DlEnv := { dlEnvOk with transfer := fun _ _ => .exn "boom" }

/-- Same environment, but only the data file of `wInfo` transfers
successfully; any other request (in particular its `.CHECKSUM` companion)
fails without raising. -/
def dlEnvCk : DlEnv :=
  { dlEnvOk with transfer := fun _ n => if n = fileNameOf wInfo then .ok 3 else .softFail }

/-- Empty destination file system. -/
def fsNone : String → Option Nat := fun _ => none

/-- Destination file system where every path holds a 5-byte file. -/
def fsAll : String → Option Nat := fun _ => some 5

/-- Destination holding only `wInfo`'s data file (its checksum sidecar is
absent). -/
def fsOnlyData : String → Option Nat :=
  fun p => if p = fullPathOf dlEnvOk wInfo then some 5 else none

end BinanceData

namespace BinanceData

/-! ### Theorems -/

/-- C1: on a directory whose single sidecar has empty content (classified
`invalid_checksum` by the worker), the parallel pass returns success `true`
while the sequential pass returns `false`: the execution mode changes the
pass/fail result, contradicting the claimed equivalence.  The root cause is
that the parallel result-aggregation loop ignores `invalid_checksum` and
`read_error` classifications when counting `failed`. -/
theorem parallel_sequential_diverge_on_invalid_sidecar :
    (verify_single_file_worker vbugEnv "d/a.zip.CHECKSUM").status = .invalid_checksum ∧
    verify_directory_parallel vbugEnv = true ∧
    verify_directory_sequential vbugEnv = false := by decide

/-- C2: with the default (parallel) directory mode, a directory whose single
sidecar is classified `invalid_checksum` produces exit status 0, although the
claim demands exit status 1 whenever some sidecar is classified corrupted,
invalid_checksum or read_error; the sequential mode implements the claimed
predicate and exits 1 on the same input. -/
theorem exit_zero_despite_invalid_checksum :
    mainExitCode vbugEnv { target := "d", kind := .dir, sequentialFlag := false } = 0 ∧
    (verify_single_file_worker vbugEnv "d/a.zip.CHECKSUM").status = .invalid_checksum ∧
    mainExitCode vbugEnv { target := "d", kind := .dir, sequentialFlag := true } = 1 := by
  decide

/-- C3: the per-file verification worker classifies a sidecar as `missing`
exactly when the paired data file is absent; as `invalid_checksum` exactly
when the sidecar is unreadable or its stripped first line yields no token
(`read_checksum_file` falsy); as `read_error` exactly when digest computation
on the data file fails; as `verified` exactly when both digests are obtained
and equal case-insensitively; and as `corrupted` exactly when both digests
are obtained but differ. -/
theorem worker_classification_cases (env : VerifyEnv) (p : String) :
    ((verify_single_file_worker env p).status = .missing ↔
      env.fileExists (stripLastExt p) = false) ∧
    ((verify_single_file_worker env p).status = .invalid_checksum ↔
      env.fileExists (stripLastExt p) = true ∧ pyFalsy (read_checksum_file env p) = true) ∧
    ((verify_single_file_worker env p).status = .read_error ↔
      env.fileExists (stripLastExt p) = true ∧ pyFalsy (read_checksum_file env p) = false ∧
      pyFalsy (calculate_sha256 env (stripLastExt p)) = true) ∧
    ((verify_single_file_worker env p).status = .verified ↔
      env.fileExists (stripLastExt p) = true ∧ pyFalsy (read_checksum_file env p) = false ∧
      pyFalsy (calculate_sha256 env (stripLastExt p)) = false ∧
      strLower ((read_checksum_file env p).getD "") =
        strLower ((calculate_sha256 env (stripLastExt p)).getD "")) ∧
    ((verify_single_file_worker env p).status = .corrupted ↔
      env.fileExists (stripLastExt p) = true ∧ pyFalsy (read_checksum_file env p) = false ∧
      pyFalsy (calculate_sha256 env (stripLastExt p)) = false ∧
      strLower ((read_checksum_file env p).getD "") ≠
        strLower ((calculate_sha256 env (stripLastExt p)).getD "")) := by
  unfold verify_single_file_worker
  cases hex : env.fileExists (stripLastExt p) <;>
    cases hE : pyFalsy (read_checksum_file env p) <;>
      cases hA : pyFalsy (calculate_sha256 env (stripLastExt p)) <;>
        by_cases hc : strLower ((read_checksum_file env p).getD "") =
            strLower ((calculate_sha256 env (stripLastExt p)).getD "") <;>
          simp [hex, hE, hA, hc]

/-! ### Helper lemmas about the download worker -/

theorem download_file_tracker (env : DlEnv) (path fileName folder : String) (st : DlState) :
    (download_file env path fileName folder st).1.tracker = st.tracker := by
  simp only [download_file]
  cases h : env.transfer path fileName <;> simp [h]

theorem download_file_exn (env : DlEnv) (path fileName folder : String) (st : DlState)
    (msg : String) (h : env.transfer path fileName = .exn msg) :
    download_file env path fileName folder st =
      ({ st with transferCalls := st.transferCalls ++ [(path, fileName)] }, some msg) := by
  simp [download_file, h]

/-- An in-range task whose destination file is already complete is marked
skipped and nothing else changes. -/
theorem worker_skip (env : DlEnv) (info : DownloadInfo) (st : DlState)
    (h1 : InRange env info) (h2 : is_file_complete st.fs (fullPathOf env info) = true) :
    download_single_kline_file env info st =
      (true, { st with tracker := mark_skipped st.tracker }) := by
  simp [download_single_kline_file, h1, h2]

/-- The worker applies exactly one tracker mark to an in-range task and none
to an out-of-range task. -/
theorem worker_tracker_shape (env : DlEnv) (info : DownloadInfo) (st : DlState) :
    (¬ InRange env info ∧ (download_single_kline_file env info st).2 = st) ∨
    (InRange env info ∧
      ((download_single_kline_file env info st).2.tracker = mark_skipped st.tracker ∨
       (download_single_kline_file env info st).2.tracker = mark_completed st.tracker ∨
       (download_single_kline_file env info st).2.tracker =
         mark_failed (append_failed (taskId info) st.tracker))) := by
  by_cases h : InRange env info
  · refine Or.inr ⟨h, ?_⟩
    unfold download_single_kline_file
    rw [if_pos h]
    by_cases hc : is_file_complete st.fs (fullPathOf env info) = true
    · simp [hc]
    · simp only [hc, if_false, Bool.false_eq_true]
      rcases hdf : download_file env (pathOf env info) (fileNameOf info) info.folder st
        with ⟨st1, r⟩
      have ht1 : st1.tracker = st.tracker := by
        have hh := download_file_tracker env (pathOf env info) (fileNameOf info) info.folder st
        rw [hdf] at hh
        exact hh
      cases r with
      | some msg => simp [ht1]
      | none =>
        by_cases hk : info.checksum = 1
        · simp only [hk, if_true, ite_true]
          by_cases hcc : is_file_complete st1.fs (checksumFullPathOf env info) = true
          · simp [hcc, ht1]
          · simp only [hcc, if_false, Bool.false_eq_true]
            rcases hdf2 : download_file env (pathOf env info) (checksumNameOf info)
                info.folder st1 with ⟨st2, r2⟩
            have ht2 : st2.tracker = st.tracker := by
              have hh := download_file_tracker env (pathOf env info) (checksumNameOf info)
                info.folder st1
              rw [hdf2] at hh
              rw [hh]
              exact ht1
            cases r2 with
            | some msg2 => simp [ht2]
            | none => simp [ht2]
        · simp [hk, ht1]
  · exact Or.inl ⟨h, by simp [download_single_kline_file, h]⟩

/-- The processed count grows by exactly one on an in-range task and is
untouched on an out-of-range one. -/
theorem csum_worker (env : DlEnv) (info : DownloadInfo) (st : DlState) :
    csum (download_single_kline_file env info st).2.tracker =
      csum st.tracker + (if InRange env info then 1 else 0) := by
  rcases worker_tracker_shape env info st with ⟨h, he⟩ | ⟨h, hm | hm | hm⟩
  · simp [h, he]
  · simp [h, hm, csum, mark_skipped]; omega
  · simp [h, hm, csum, mark_completed]; omega
  · simp [h, hm, csum, mark_failed, append_failed]; omega

/-- `total` is never mutated by the worker. -/
theorem worker_total (env : DlEnv) (info : DownloadInfo) (st : DlState) :
    (download_single_kline_file env info st).2.tracker.total = st.tracker.total := by
  rcases worker_tracker_shape env info st with ⟨h, he⟩ | ⟨h, hm | hm | hm⟩
  · simp [he]
  · simp [hm, mark_skipped]
  · simp [hm, mark_completed]
  · simp [hm, mark_failed, append_failed]

theorem csum_runQueue (env : DlEnv) (l : List DownloadInfo) (st : DlState) :
    csum (runQueue env l st).tracker =
      csum st.tracker + (l.filter (fun i => decide (InRange env i))).length := by
  induction l generalizing st with
  | nil => simp [runQueue]
  | cons i rest ih =>
    simp only [runQueue]
    rw [ih, csum_worker]
    by_cases h : InRange env i
    · simp [List.filter_cons, h]; omega
    · simp [List.filter_cons, h]

theorem total_runQueue (env : DlEnv) (l : List DownloadInfo) (st : DlState) :
    (runQueue env l st).tracker.total = st.tracker.total := by
  induction l generalizing st with
  | nil => simp [runQueue]
  | cons i rest ih =>
    simp only [runQueue]
    rw [ih, worker_total]

/-- Every task of a list that is in range and whose destination file is
complete in the current file system gets marked skipped, with the file
system and the transfer-call log untouched. -/
theorem runQueue_all_skip (env : DlEnv) (l : List DownloadInfo) (st : DlState)
    (h : ∀ i ∈ l, InRange env i ∧ is_file_complete st.fs (fullPathOf env i) = true) :
    (runQueue env l st).fs = st.fs ∧
    (runQueue env l st).transferCalls = st.transferCalls ∧
    (runQueue env l st).tracker.skipped = st.tracker.skipped + l.length ∧
    (runQueue env l st).tracker.completed = st.tracker.completed ∧
    (runQueue env l st).tracker.failed = st.tracker.failed := by
  induction l generalizing st with
  | nil => simp [runQueue]
  | cons i rest ih =>
    obtain ⟨h1, h2⟩ := h i (List.mem_cons_self i rest)
    simp only [runQueue]
    rw [worker_skip env i st h1 h2]
    have ih' := ih { st with tracker := mark_skipped st.tracker }
      (fun j hj => h j (List.mem_cons_of_mem i hj))
    refine ⟨ih'.1, ih'.2.1, ?_, ih'.2.2.2.1, ih'.2.2.2.2⟩
    rw [ih'.2.2.1]
    simp [mark_skipped]
    omega

/-- C4 (amended): with `total` fixed to the queue length before dispatch,
`completed + failed + skipped ≤ total` holds after every prefix of the
execution (hence at all times, since each mark is atomic and adds one), and
after all tasks resolve the sum equals the number of queued tasks whose date
lies in the inclusive `[startDate, endDate]` range — hence it equals `total`
whenever every queued task is in range.  (As stated, the claim's final
equality fails for queues holding out-of-range tasks, which the worker
silently skips without marking; see the counterexample.) -/
theorem progress_counters_bounded_final (env : DlEnv) (queue : List DownloadInfo)
    (fs0 : String → Option Nat) :
    (∀ n : Nat, csum (runQueue env (queue.take n) (initState queue fs0)).tracker ≤
      (initState queue fs0).tracker.total) ∧
    csum (runPhase env queue fs0).tracker =
      (queue.filter (fun i => decide (InRange env i))).length ∧
    ((∀ i ∈ queue, InRange env i) →
      csum (runPhase env queue fs0).tracker = (initState queue fs0).tracker.total) := by
  have hbase : csum (initState queue fs0).tracker = 0 := by simp [initState, csum]
  refine ⟨fun n => ?_, ?_, fun hall => ?_⟩
  · rw [csum_runQueue, hbase]
    simp only [initState, Nat.zero_add]
    calc ((queue.take n).filter (fun i => decide (InRange env i))).length
        ≤ (queue.take n).length := List.length_filter_le _ _
      _ ≤ queue.length := by
          rw [List.length_take]
          exact Nat.min_le_right n queue.length
  · rw [runPhase, csum_runQueue, hbase, Nat.zero_add]
  · rw [runPhase, csum_runQueue, hbase, Nat.zero_add]
    have hfe : queue.filter (fun i => decide (InRange env i)) = queue :=
      List.filter_eq_self.mpr (fun a ha => by simpa using hall a ha)
    rw [hfe]
    simp [initState]

/-- Witness for C4's amended theorem: a one-task in-range queue reaches
`completed + failed + skipped = total` at completion. -/
theorem progress_counters_bounded_final_witness :
    csum (runPhase dlEnvOk [wInfo] fsNone).tracker = (initState [wInfo] fsNone).tracker.total :=
  (progress_counters_bounded_final dlEnvOk [wInfo] fsNone).2.2 (by decide)

/-- C4 as stated is false on the code: a queue holding one task whose date
lies outside `[startDate, endDate]` finishes with
`completed + failed + skipped = 0 ≠ 1 = total`, because the worker returns
success for out-of-range tasks without marking the tracker. -/
theorem progress_sum_total_cex :
    csum (runPhase dlEnvOk [xInfo] fsNone).tracker ≠
      (initState [xInfo] fsNone).tracker.total := by decide

/-- C5: the worker is a total function (in this embedding nothing escapes its
boundary by construction; the only raising operation, the transfer primitive,
is matched on explicitly), and whenever it reports failure the task
identifier has been appended to `failed_files` and the tracker marked failed
— exactly `mark_failed (append_failed ...)` — while any raising transfer of
the data file makes it report failure rather than propagate. -/
theorem worker_catches_all_failures (env : DlEnv) (info : DownloadInfo) (st : DlState) :
    ((download_single_kline_file env info st).1 = false →
      (download_single_kline_file env info st).2.tracker =
        mark_failed (append_failed (taskId info) st.tracker)) ∧
    (∀ msg, InRange env info →
      is_file_complete st.fs (fullPathOf env info) = false →
      env.transfer (pathOf env info) (fileNameOf info) = .exn msg →
      (download_single_kline_file env info st).1 = false) := by
  constructor
  · intro hfalse
    by_cases h : InRange env info
    · unfold download_single_kline_file at hfalse ⊢
      rw [if_pos h] at hfalse ⊢
      by_cases hc : is_file_complete st.fs (fullPathOf env info) = true
      · simp [hc] at hfalse
      · simp only [hc, if_false, Bool.false_eq_true] at hfalse ⊢
        rcases hdf : download_file env (pathOf env info) (fileNameOf info) info.folder st
          with ⟨st1, r⟩
        have ht1 : st1.tracker = st.tracker := by
          have hh := download_file_tracker env (pathOf env info) (fileNameOf info) info.folder st
          rw [hdf] at hh
          exact hh
        rw [hdf] at hfalse
        cases r with
        | some msg => simp [ht1]
        | none =>
          by_cases hk : info.checksum = 1
          · simp only [hk, if_true, ite_true] at hfalse ⊢
            by_cases hcc : is_file_complete st1.fs (checksumFullPathOf env info) = true
            · simp [hcc] at hfalse
            · simp only [hcc, if_false, Bool.false_eq_true] at hfalse ⊢
              rcases hdf2 : download_file env (pathOf env info) (checksumNameOf info)
                  info.folder st1 with ⟨st2, r2⟩
              have ht2 : st2.tracker = st.tracker := by
                have hh := download_file_tracker env (pathOf env info) (checksumNameOf info)
                  info.folder st1
                rw [hdf2] at hh
                rw [hh]
                exact ht1
              rw [hdf2] at hfalse
              cases r2 with
              | some msg2 => simp [ht2]
              | none => simp at hfalse
          · simp [hk] at hfalse
    · simp [download_single_kline_file, h] at hfalse
  · intro msg h hc htr
    unfold download_single_kline_file
    rw [if_pos h]
    simp only [hc, if_false, Bool.false_eq_true]
    rw [download_file_exn env (pathOf env info) (fileNameOf info) info.folder st msg htr]

/-- Witness for C5: with a transfer primitive that always raises, the worker
returns `false` and the tracker records exactly that failure. -/
theorem worker_catches_all_failures_witness :
    (download_single_kline_file dlEnvExn wInfo (initState [wInfo] fsNone)).1 = false ∧
    (download_single_kline_file dlEnvExn wInfo (initState [wInfo] fsNone)).2.tracker =
      mark_failed (append_failed (taskId wInfo) (initState [wInfo] fsNone).tracker) := by
  have hfalse : (download_single_kline_file dlEnvExn wInfo (initState [wInfo] fsNone)).1 = false :=
    (worker_catches_all_failures dlEnvExn wInfo (initState [wInfo] fsNone)).2 "boom"
      (by decide) (by decide) (by decide)
  exact ⟨hfalse, (worker_catches_all_failures dlEnvExn wInfo (initState [wInfo] fsNone)).1 hfalse⟩

/-- C6 (amended): in the second run every task that is in range and whose
destination file exists with non-zero size after the first run is marked
skipped without invoking the transfer primitive; consequently, when that
holds for every queued task, the second run reports `skipped == total`,
`completed == 0`, `failed == 0` and performs no transfer invocation at all.
(As stated, the claim fails for queues holding out-of-range tasks, which are
never marked; see the counterexample.) -/
theorem second_run_all_skipped (env : DlEnv) (queue : List DownloadInfo)
    (fs0 : String → Option Nat)
    (h : ∀ i ∈ queue, InRange env i ∧
      is_file_complete (runPhase env queue fs0).fs (fullPathOf env i) = true) :
    (runPhase env queue (runPhase env queue fs0).fs).tracker.skipped = queue.length ∧
    (runPhase env queue (runPhase env queue fs0).fs).tracker.completed = 0 ∧
    (runPhase env queue (runPhase env queue fs0).fs).tracker.failed = 0 ∧
    (runPhase env queue (runPhase env queue fs0).fs).transferCalls = [] := by
  have hall := runQueue_all_skip env queue (initState queue (runPhase env queue fs0).fs) h
  simp only [runPhase] at hall ⊢
  refine ⟨?_, ?_, ?_, ?_⟩
  · rw [hall.2.2.1]; simp [initState]
  · rw [hall.2.2.2.1]; simp [initState]
  · rw [hall.2.2.2.2]; simp [initState]
  · rw [hall.2.1]; simp [initState]

/-- Witness for C6's amended theorem: a one-task in-range queue whose
destination already holds every file is fully skipped in the second run. -/
theorem second_run_all_skipped_witness :
    (runPhase dlEnvOk [wInfo] (runPhase dlEnvOk [wInfo] fsAll).fs).tracker.skipped =
      [wInfo].length ∧
    (runPhase dlEnvOk [wInfo] (runPhase dlEnvOk [wInfo] fsAll).fs).tracker.completed = 0 ∧
    (runPhase dlEnvOk [wInfo] (runPhase dlEnvOk [wInfo] fsAll).fs).tracker.failed = 0 ∧
    (runPhase dlEnvOk [wInfo] (runPhase dlEnvOk [wInfo] fsAll).fs).transferCalls = [] :=
  second_run_all_skipped dlEnvOk [wInfo] fsAll (by decide)

/-- C6 as stated is false on the code: with a single queued task whose date
lies outside `[startDate, endDate]`, the second run (like the first) marks
nothing, so it reports `skipped = 0 ≠ 1 = total`. -/
theorem second_run_skipped_count_cex :
    (runPhase dlEnvOk [xInfo] (runPhase dlEnvOk [xInfo] fsNone).fs).tracker.skipped ≠
      [xInfo].length := by decide

/-- C8: for a task whose date lies outside the inclusive
`[startDate, endDate]` range the worker returns success with the state — file
system, tracker counters, failed-items list and transfer-call log — exactly
unchanged: the transfer primitive is never invoked. -/
theorem out_of_range_task_untouched (env : DlEnv) (info : DownloadInfo) (st : DlState)
    (h : ¬ InRange env info) :
    download_single_kline_file env info st = (true, st) := by
  unfold download_single_kline_file
  rw [if_neg h]

/-- Witness for C8 at a concrete out-of-range task. -/
theorem out_of_range_task_untouched_witness :
    download_single_kline_file dlEnvOk xInfo (initState [xInfo] fsNone) =
      (true, initState [xInfo] fsNone) :=
  out_of_range_task_untouched dlEnvOk xInfo (initState [xInfo] fsNone) (by decide)

/-- C10: for a task with the checksum flag set whose destination data file is
already complete (exists with non-zero size), the worker marks it skipped and
returns `true` with the file system and transfer-call log untouched — the
checksum branch is never reached, so the companion sidecar is not fetched no
matter whether it is absent or empty on disk. -/
theorem preexisting_file_skips_checksum (env : DlEnv) (info : DownloadInfo) (st : DlState)
    ( _hck : info.checksum = 1)
    (hin : InRange env info)
    (hfull : is_file_complete st.fs (fullPathOf env info) = true) :
    download_single_kline_file env info st =
      (true, { st with tracker := mark_skipped st.tracker }) :=
  worker_skip env info st hin hfull

/-- Witness for C10: concrete task with the data file present (5 bytes) and
the `.CHECKSUM` sidecar absent from the destination. -/
theorem preexisting_file_skips_checksum_witness :
    download_single_kline_file dlEnvOk wInfo (initState [wInfo] fsOnlyData) =
      (true, { initState [wInfo] fsOnlyData with
                tracker := mark_skipped (initState [wInfo] fsOnlyData).tracker }) :=
  preexisting_file_skips_checksum dlEnvOk wInfo (initState [wInfo] fsOnlyData)
    (by decide) (by decide) (by decide)

/-- The data file and its `.CHECKSUM` companion live at distinct destination
paths (their names differ in length). -/
theorem checksumFullPath_ne_fullPath (env : DlEnv) (info : DownloadInfo) :
    checksumFullPathOf env info ≠ fullPathOf env info := by
  intro h
  have hlen := congrArg String.length h
  simp only [checksumFullPathOf, fullPathOf, joinPath, checksumNameOf, fileNameOf,
    String.length_append] at hlen
  have h1 : (".zip.CHECKSUM" : String).length = 13 := rfl
  have h2 : (".zip" : String).length = 4 := rfl
  simp only [h1, h2] at hlen
  omega

/-- C7: for a task with the checksum flag set whose data-file transfer
succeeds, a failure while fetching the companion checksum file — which, per
the spec's reference behaviour (section 4.3 step 5), the transfer primitive reports
without raising — does not fail the parent task: the worker still marks it
completed and returns `true` (and the sidecar is left unwritten). -/
theorem checksum_fetch_failure_keeps_task_completed (env : DlEnv) (info : DownloadInfo)
    (st : DlState) (size : Nat)
    (hck : info.checksum = 1)
    (hin : InRange env info)
    (hmain : is_file_complete st.fs (fullPathOf env info) = false)
    (hok : env.transfer (pathOf env info) (fileNameOf info) = .ok size)
    (hside : is_file_complete st.fs (checksumFullPathOf env info) = false)
    (hfail : env.transfer (pathOf env info) (checksumNameOf info) = .softFail) :
    (download_single_kline_file env info st).1 = true ∧
    (download_single_kline_file env info st).2.tracker.completed = st.tracker.completed + 1 ∧
    (download_single_kline_file env info st).2.tracker.failed = st.tracker.failed ∧
    (download_single_kline_file env info st).2.fs (checksumFullPathOf env info) =
      st.fs (checksumFullPathOf env info) := by
  have hneq := checksumFullPath_ne_fullPath env info
  have hfull' : joinPath (if info.folder = "" then env.cwd else info.folder)
      (pathOf env info) (fileNameOf info) = fullPathOf env info := rfl
  have hside2 : is_file_complete
      (fun p => if p = fullPathOf env info then some size else st.fs p)
      (checksumFullPathOf env info) = false := by
    simp only [is_file_complete] at hside ⊢
    rw [if_neg hneq]
    exact hside
  simp only [download_single_kline_file, hin, if_true, ite_true, hmain, Bool.false_eq_true,
    if_false, download_file, hok, hfail, hfull', hck, hside2, mark_completed]
  refine ⟨trivial, trivial, trivial, ?_⟩
  rw [if_neg hneq]

/-- Witness for C7: the data file of `wInfo` transfers successfully while the
sidecar fetch fails softly, and the task still completes. -/
theorem checksum_fetch_failure_keeps_task_completed_witness :
    (download_single_kline_file dlEnvCk wInfo (initState [wInfo] fsNone)).1 = true ∧
    (download_single_kline_file dlEnvCk wInfo (initState [wInfo] fsNone)).2.tracker.completed =
      (initState [wInfo] fsNone).tracker.completed + 1 ∧
    (download_single_kline_file dlEnvCk wInfo (initState [wInfo] fsNone)).2.tracker.failed =
      (initState [wInfo] fsNone).tracker.failed ∧
    (download_single_kline_file dlEnvCk wInfo (initState [wInfo] fsNone)).2.fs
        (checksumFullPathOf dlEnvCk wInfo) =
      (initState [wInfo] fsNone).fs (checksumFullPathOf dlEnvCk wInfo) :=
  checksum_fetch_failure_keeps_task_completed dlEnvCk wInfo (initState [wInfo] fsNone) 3
    (by decide) (by decide) (by decide) (by decide) (by decide) (by decide)

/-! ### Lemmas about the queue builder -/

theorem prodInner_length (intervals dates : List String) (s : String) :
    (intervals.flatMap (fun i => dates.map (fun d => (s, i, d)))).length =
      intervals.length * dates.length := by
  induction intervals with
  | nil => simp
  | cons i rest ih =>
    simp only [List.flatMap_cons, List.length_append, List.length_map, ih, List.length_cons]
    ring

theorem allTriples_length (symbols intervals dates : List String) :
    (allTriples symbols intervals dates).length =
      symbols.length * (intervals.length * dates.length) := by
  unfold allTriples
  induction symbols with
  | nil => simp
  | cons s rest ih =>
    simp only [List.flatMap_cons, List.length_append, ih, List.length_cons,
      prodInner_length]
    ring

theorem dedupFirst_length_le (seen : List String) (l : List Trip) :
    (dedupFirst seen l).length ≤ l.length := by
  induction l generalizing seen with
  | nil => simp [dedupFirst]
  | cons t rest ih =>
    by_cases hs : fid3 t ∈ seen
    · rw [dedupFirst, if_pos hs]
      exact Nat.le_succ_of_le (ih seen)
    · rw [dedupFirst, if_neg hs]
      simpa using Nat.succ_le_succ (ih (fid3 t :: seen))

theorem dedupFirst_not_mem_seen (seen : List String) (l : List Trip) :
    ∀ y ∈ dedupFirst seen l, fid3 y ∉ seen := by
  induction l generalizing seen with
  | nil => simp [dedupFirst]
  | cons t rest ih =>
    intro y hy
    by_cases hs : fid3 t ∈ seen
    · rw [dedupFirst, if_pos hs] at hy
      exact ih seen y hy
    · rw [dedupFirst, if_neg hs] at hy
      rcases List.mem_cons.mp hy with rfl | hy'
      · exact hs
      · have h2 := ih (fid3 t :: seen) y hy'
        exact fun hc => h2 (List.mem_cons_of_mem _ hc)

theorem dedupFirst_pairwise (seen : List String) (l : List Trip) :
    (dedupFirst seen l).Pairwise (fun a b => fid3 a ≠ fid3 b) := by
  induction l generalizing seen with
  | nil => simp [dedupFirst]
  | cons t rest ih =>
    by_cases hs : fid3 t ∈ seen
    · rw [dedupFirst, if_pos hs]
      exact ih seen
    · rw [dedupFirst, if_neg hs]
      refine List.Pairwise.cons ?_ (ih (fid3 t :: seen))
      intro y hy he
      exact dedupFirst_not_mem_seen (fid3 t :: seen) rest y hy
        (by rw [← he]; exact List.mem_cons_self _ _)

theorem dedupFirst_sublist (seen : List String) (l : List Trip) :
    (dedupFirst seen l).Sublist l := by
  induction l generalizing seen with
  | nil => simp [dedupFirst]
  | cons t rest ih =>
    by_cases hs : fid3 t ∈ seen
    · rw [dedupFirst, if_pos hs]
      exact (ih seen).cons t
    · rw [dedupFirst, if_neg hs]
      exact (ih (fid3 t :: seen)).cons₂ t

/-- Every kept entry is the first element of the enumeration carrying its
`file_id`: first occurrence wins. -/
theorem dedupFirst_first_occurrence (seen : List String) (l : List Trip) :
    ∀ y ∈ dedupFirst seen l,
      (l.filter (fun t => decide (fid3 t = fid3 y))).head? = some y := by
  induction l generalizing seen with
  | nil => simp [dedupFirst]
  | cons t rest ih =>
    intro y hy
    by_cases hs : fid3 t ∈ seen
    · rw [dedupFirst, if_pos hs] at hy
      have hne : fid3 t ≠ fid3 y := by
        intro he
        exact dedupFirst_not_mem_seen seen rest y hy (he ▸ hs)
      rw [List.filter_cons, if_neg (by simp [hne])]
      exact ih seen y hy
    · rw [dedupFirst, if_neg hs] at hy
      rcases List.mem_cons.mp hy with rfl | hy'
      · rw [List.filter_cons, if_pos (by simp)]
        rfl
      · have hne : fid3 t ≠ fid3 y := by
          intro he
          exact dedupFirst_not_mem_seen (fid3 t :: seen) rest y hy'
            (by rw [← he]; exact List.mem_cons_self _ _)
        rw [List.filter_cons, if_neg (by simp [hne])]
        exact ih (fid3 t :: seen) y hy'

theorem build_queue_map_key (trading_type : String) (symbols intervals dates : List String)
    (start_date end_date : Int) (folder : String) (checksum : Nat)
    (date_range : Option String) :
    (build_download_queue trading_type symbols intervals dates start_date end_date folder
        checksum date_range).map (fun a => (a.symbol, a.interval, a.date)) =
      dedupFirst [] (allTriples symbols intervals dates) := by
  unfold build_download_queue
  rw [List.map_map]
  exact List.map_id _

/-- C9: the built download queue is never longer than
`|symbols| * |intervals| * |dates|`; its `(symbol, interval, date)` keys are
pairwise distinct; its key sequence is a sublist of the nested-loop
enumeration (so insertion order is preserved); and each queue entry carries
the key of the first enumeration element with its `file_id` (first
occurrence wins). -/
theorem queue_dedup_properties (trading_type : String) (symbols intervals dates : List String)
    (start_date end_date : Int) (folder : String) (checksum : Nat)
    (date_range : Option String) :
    (build_download_queue trading_type symbols intervals dates start_date end_date folder
        checksum date_range).length ≤ symbols.length * (intervals.length * dates.length) ∧
    (build_download_queue trading_type symbols intervals dates start_date end_date folder
        checksum date_range).Pairwise
      (fun a b => (a.symbol, a.interval, a.date) ≠ (b.symbol, b.interval, b.date)) ∧
    ((build_download_queue trading_type symbols intervals dates start_date end_date folder
        checksum date_range).map (fun a => (a.symbol, a.interval, a.date))).Sublist
      (allTriples symbols intervals dates) ∧
    ∀ y ∈ build_download_queue trading_type symbols intervals dates start_date end_date folder
        checksum date_range,
      ((allTriples symbols intervals dates).filter
        (fun t => decide (fid3 t = taskId y))).head? = some (y.symbol, y.interval, y.date) := by
  have hmap := build_queue_map_key trading_type symbols intervals dates start_date end_date
    folder checksum date_range
  refine ⟨?_, ?_, ?_, ?_⟩
  · have hlen : (build_download_queue trading_type symbols intervals dates start_date end_date
        folder checksum date_range).length =
        (dedupFirst [] (allTriples symbols intervals dates)).length := by
      rw [← hmap, List.length_map]
    rw [hlen, ← allTriples_length]
    exact dedupFirst_length_le [] _
  · have hp : ((build_download_queue trading_type symbols intervals dates start_date end_date
        folder checksum date_range).map (fun a => (a.symbol, a.interval, a.date))).Pairwise
        (fun a b => fid3 a ≠ fid3 b) := by
      rw [hmap]
      exact dedupFirst_pairwise [] _
    have hp2 := (List.pairwise_map).mp hp
    exact hp2.imp (fun hne he => hne (by rw [he]))
  · rw [hmap]
    exact dedupFirst_sublist [] _
  · intro y hy
    unfold build_download_queue at hy
    rcases List.mem_map.mp hy with ⟨t, ht, rfl⟩
    exact dedupFirst_first_occurrence [] _ t ht

/-- Witness for C9's first-occurrence conjunct at a concrete queue. -/
theorem queue_dedup_properties_witness :
    ((allTriples ["btcusdt"] ["1d"] ["2024-01-01"]).filter
      (fun t => decide (fid3 t = taskId wInfo))).head? =
      some ("btcusdt", "1d", "2024-01-01") :=
  (queue_dedup_properties "spot" ["btcusdt"] ["1d"] ["2024-01-01"] 0 2 "f" 1 none).2.2.2
    wInfo (by decide)

end BinanceData
